import Mathlib

/-!
Verification of the Google-Doc Q&A bot core (knowledge-base refresh,
line-oriented Q/A parsing, tiered matching, response caching).

The development shallowly embeds the Python source:
  * strings are `List Char` (ASCII case mapping models `str.lower()`;
    the documents and queries at issue are ASCII),
  * timestamps are `Int` (only compared and subtracted by the code),
  * the document fetch is an `Except Unit (List Char)` input (the text
    extracted from the external document service, or a raised error),
  * the content digest (SHA-256 in the source, computed by an external
    library) is a parameter `hashFn`; the refresh logic only ever compares
    digests of fetched texts for equality, and any deterministic function
    gives equal digests on byte-identical texts,
  * Python dictionaries are insertion-ordered association lists with
    update-in-place semantics, matching CPython.
-/

namespace QABot

/-- ASCII/Python whitespace, as stripped by `str.strip()`. -/
def isSpace (c : Char) : Bool :=
  c = ' ' || c = '\t' || c = '\n' || c = '\r' || c = '\x0b' || c = '\x0c'

/-- Right-side strip (`str.rstrip()`). -/
def stripRightW (l : List Char) : List Char :=
  (l.reverse.dropWhile isSpace).reverse

/-- Python `str.strip()`: drop whitespace from both ends. -/
def strip (l : List Char) : List Char :=
  stripRightW (l.dropWhile isSpace)

/-- Python `str.split('\n')`: always yields at least one (possibly empty) line. -/
def splitLinesAux : List Char → List Char → List (List Char)
  | [], acc => [acc.reverse]
  | c :: rest, acc =>
    if c = '\n' then acc.reverse :: splitLinesAux rest []
    else splitLinesAux rest (c :: acc)

def splitLines (s : List Char) : List (List Char) :=
  splitLinesAux s []

/-- Python `' '.join(buffer)`. -/
def joinSpace : List (List Char) → List Char
  | [] => []
  | [x] => x
  | x :: y :: rest => x ++ ' ' :: joinSpace (y :: rest)

/-- Python `s.startswith(p)` (first argument is the pattern). -/
def startsWith : List Char → List Char → Bool
  | [], _ => true
  | _ :: _, [] => false
  | p :: ps, c :: cs => (p == c) && startsWith ps cs

/-- ASCII model of Python `str.lower()` on a single character. -/
def lowerChar (c : Char) : Char :=
  if 65 ≤ c.toNat ∧ c.toNat ≤ 90 then Char.ofNat (c.toNat + 32) else c

/-- ASCII model of Python `str.lower()`. -/
def lowerStr (s : List Char) : List Char :=
  s.map lowerChar

/-- Python `sub in big` (substring containment; the empty string is in everything). -/
def containsSub (big sub : List Char) : Bool :=
  startsWith sub big ||
    match big with
    | [] => false
    | _ :: rest => containsSub rest sub

/-! ### SequenceMatcher (difflib) similarity ratio

`SequenceMatcher(None, a, b).ratio()` is `2*M/(len a + len b)` where `M`
is the total size of the matching blocks found by Ratcliff-Obershelp:
recursively take the longest common contiguous block (earliest start in
`a`, then in `b`, among the maximal ones) and recurse on the pieces to
its left and right.  The source never feeds it strings of length ≥ 200,
so difflib's autojunk heuristic never activates and this is the exact
behaviour. -/

/-- Length of the longest common prefix of two strings. -/
def commonPrefixLen : List Char → List Char → Nat
  | x :: xs, y :: ys => if x = y then commonPrefixLen xs ys + 1 else 0
  | _, _ => 0

/-- Longest matching block `(i, j, k)`: `a.drop i` and `b.drop j` share a
common prefix of length `k`, `k` maximal, ties broken by least `i` then
least `j` (difflib's `find_longest_match` with no junk). -/
def longestMatch (a b : List Char) : Nat × Nat × Nat :=
  (List.range a.length).foldl
    (fun best i =>
      (List.range b.length).foldl
        (fun best j =>
          let p := commonPrefixLen (a.drop i) (b.drop j)
          if p > best.2.2 then (i, j, p) else best)
        best)
    (0, 0, 0)

/-- Total matched size, fuelled recursion (fuel `a.length + b.length`
always suffices since each recursive call strictly shrinks the pieces). -/
def matchingTotalF : Nat → List Char → List Char → Nat
  | 0, _, _ => 0
  | fuel + 1, a, b =>
    let m := longestMatch a b
    if m.2.2 = 0 then 0
    else
      matchingTotalF fuel (a.take m.1) (b.take m.2.1) + m.2.2 +
        matchingTotalF fuel (a.drop (m.1 + m.2.2)) (b.drop (m.2.1 + m.2.2))

def matchingTotal (a b : List Char) : Nat :=
  matchingTotalF (a.length + b.length) a b

/-- `SequenceMatcher(None, a, b).ratio()`. -/
def similarity (a b : List Char) : ℚ :=
  if a.length + b.length = 0 then 1
  else (2 * (matchingTotal a b : ℚ)) / ((a.length + b.length : Nat) : ℚ)

/-! ### bot.py : `GoogleDocQA.parse_qa_pairs` -/

def qMark : List Char := ['Q', ':']
def aMark : List Char := ['A', ':']

structure ParseSt where
  currentQ : Option (List Char)
  currentA : Option (List Char)
  buffer : List (List Char)
deriving DecidableEq

/-- `flush_buffer` from `bot.py`: join the buffer, then either set the
pending question (if none is pending and the text starts with `Q:`) or
the pending answer (if a question is pending and it starts with `A:`);
always clear the buffer. -/
def flushBuffer (st : ParseSt) : ParseSt :=
  if st.buffer = [] then st
  else
    let text := strip (joinSpace st.buffer)
    if st.currentQ = none ∧ startsWith qMark text then
      { st with currentQ := some (strip (text.drop 2)), buffer := [] }
    else if st.currentQ ≠ none ∧ startsWith aMark text then
      { st with currentA := some (strip (text.drop 2)), buffer := [] }
    else { st with buffer := [] }

/-- The line loop of `parse_qa_pairs`: strip each line, flush on blank
lines, flush before a line starting a new `Q:`/`A:` marker when the
buffer is non-empty, append the line to the buffer. -/
def parseLines : List (List Char) → ParseSt → ParseSt
  | [], st => st
  | l :: ls, st =>
    let l := strip l
    if l = [] then parseLines ls (flushBuffer st)
    else
      let st :=
        if (startsWith qMark l || startsWith aMark l) ∧ st.buffer ≠ [] then flushBuffer st
        else st
      parseLines ls { st with buffer := st.buffer ++ [l] }

/-- `GoogleDocQA.parse_qa_pairs` (bot.py lines 70-102).  Note the single
`append` after the loop: at most one pair is ever produced, and only when
both the pending question and pending answer are truthy (non-empty). -/
def parse_qa_pairs (content : List Char) : List (List Char × List Char) :=
  let st := flushBuffer (parseLines (splitLines content) ⟨none, none, []⟩)
  match st.currentQ, st.currentA with
  | some q, some a => if q ≠ [] ∧ a ≠ [] then [(lowerStr q, a)] else []
  | _, _ => []

/-! ### bot.py : `GoogleDocQA` state and `refresh_qa_pairs` -/

/-- The mutable fields of `GoogleDocQA` that the refresh and answer paths
read and write.  Timestamps are integers; the response cache maps the
normalized query (standing in for Python's `hash(question_lower)`, which
is only used as a dictionary key) to a response and its creation time. -/
structure BotState where
  qa_pairs : List (List Char × List Char)
  last_refresh : Int
  content_hash : Option (List Char)
  refresh_interval : Int
  response_cache : List (List Char × List Char × Int)
  cache_expiry : Int
deriving DecidableEq

/-- Outcome of one `refresh_qa_pairs` call, instrumented with how many
times the document was fetched and how many times it was parsed. -/
structure RefreshOut where
  state : BotState
  ok : Bool
  fetches : Nat
  parses : Nat
deriving DecidableEq

/-- `GoogleDocQA.refresh_qa_pairs` (bot.py lines 104-140).
`hashFn` is the content digest (SHA-256 in the source), `fetch` the
outcome the document fetch would have (`Except.error` models the fetch
raising, which the method's own `except` turns into a `False` return with
the state untouched). -/
def refresh_qa_pairs (hashFn : List Char → List Char) (s : BotState) (now : Int)
    (force : Bool) (fetch : Except Unit (List Char)) : RefreshOut :=
  if ¬force ∧ now - s.last_refresh < s.refresh_interval then ⟨s, true, 0, 0⟩
  else
    match fetch with
    | .error _ => ⟨s, false, 1, 0⟩
    | .ok content =>
      let newHash := hashFn content
      if ¬force ∧ s.content_hash = some newHash then
        ⟨{ s with last_refresh := now }, true, 1, 0⟩
      else
        let newPairs := parse_qa_pairs content
        if newPairs = [] then ⟨s, false, 1, 1⟩
        else
          let s2 : BotState :=
            { s with qa_pairs := newPairs, content_hash := some newHash, last_refresh := now }
          ⟨s2, true, 1, 1⟩

/-! ### bot.py : `GoogleDocQA._find_best_match` -/

/-- The scan loop of `_find_best_match`, carrying `best_match` and
`highest_score`.  An exact question match returns its answer immediately;
otherwise the `SequenceMatcher` ratio is tracked (strictly-greater update,
accepted only at or above the threshold). -/
def findBestMatchGo (thr : ℚ) (query : List Char) :
    List (List Char × List Char) → Option (List Char) → ℚ → Option (List Char)
  | [], best, high => if high ≥ thr then best else none
  | (q, a) :: rest, best, high =>
    if query = q then some a
    else
      let sim := similarity query q
      if sim > high ∧ sim ≥ thr then findBestMatchGo thr query rest (some a) sim
      else findBestMatchGo thr query rest best high

/-- `GoogleDocQA._find_best_match` (bot.py lines 182-198). -/
def findBestMatch (thr : ℚ) (pairs : List (List Char × List Char))
    (query : List Char) : Option (List Char) :=
  findBestMatchGo thr query pairs none 0

/-! ### bot.py : `_naija_flavor`, cache helpers, `get_answer` -/

/-- The phrase table of `_naija_flavor`, in insertion order. -/
def phrases : List (List Char × List Char) :=
  [("hello".data, "How you dey!".data),
   ("hi".data, "Wetin dey happen!".data),
   ("thank you".data, "No wahala!".data),
   ("thanks".data, "I dey appreciate!".data),
   ("sorry".data, "No vex!".data),
   ("please".data, "Abeg!".data),
   ("help".data, "I go help you!".data),
   ("what\x27s up".data, "How body!".data),
   ("how are you".data, "How you dey feel today?".data)]

/-- Python `text.replace("?", " abi?")`. -/
def replaceQ : List Char → List Char
  | [] => []
  | c :: rest => if c = '?' then " abi?".data ++ replaceQ rest else c :: replaceQ rest

/-- `GoogleDocQA._naija_flavor` (bot.py lines 200-223). -/
def naijaFlavor (text : List Char) : List Char :=
  match phrases.find? (fun p => containsSub (lowerStr text) (lowerStr p.1)) with
  | some p => p.2
  | none =>
    if containsSub text "?".data then replaceQ text
    else text ++ "... no be so?".data

/-- `GoogleDocQA._clean_cache` (bot.py lines 59-64): drop entries older
than the cache expiry. -/
def cleanCache (cache : List (List Char × List Char × Int)) (now expiry : Int) :
    List (List Char × List Char × Int) :=
  cache.filter (fun e => now - e.2.2 ≤ expiry)

/-- The cache probe of `get_answer`: a hit only if the entry exists and is
within the expiry window. -/
def cacheLookup (cache : List (List Char × List Char × Int)) (k : List Char)
    (now expiry : Int) : Option (List Char) :=
  match cache.find? (fun e => e.1 = k) with
  | some e => if now - e.2.2 ≤ expiry then some e.2.1 else none
  | none => none

/-- Python truthiness of `answer` in `get_answer` (`None` and the empty
string are both falsy). -/
def pyTruthy : Option (List Char) → Bool
  | some a => a ≠ []
  | none => false

/-- Fault-injection points for `get_answer`: each flag makes the
corresponding internal step raise, exercising the method's all-catching
`try`/`except`. -/
structure GAFaults where
  clean : Bool
  probe : Bool
  match1 : Bool
  refreshStep : Bool
  match2 : Bool
  flavor : Bool
  store : Bool

/-- A step of the `try` body: either raises (fault injected) or yields
its value. -/
def guardF (fault : Bool) (v : α) : Except Unit α :=
  if fault then .error () else .ok v

def msgAsk : List Char := "Abeg ask question jare!".data
def msgNoSabi : List Char :=
  "I no sabi answer to that question. Try ask am another way.".data
def msgBrainBroke : List Char :=
  "E don be! My brain no dey work now. Try again small time.".data

/-- The `try` body of `GoogleDocQA.get_answer` (bot.py lines 144-176),
returning the reply string or the exception that escaped a step. -/
def getAnswerCore (hashFn : List Char → List Char) (s : BotState) (now : Int)
    (fetch : Except Unit (List Char)) (thr : ℚ) (question : List Char)
    (f : GAFaults) : Except Unit (List Char) := do
  let cache ← guardF f.clean (cleanCache s.response_cache now s.cache_expiry)
  let ql := strip (lowerStr question)
  if ql = [] then return msgAsk
  else do
    let hit ← guardF f.probe (cacheLookup cache ql now s.cache_expiry)
    match hit with
    | some resp => return resp
    | none => do
      let a1 ← guardF f.match1 (findBestMatch thr s.qa_pairs ql)
      let a2 ←
        if pyTruthy a1 then pure a1
        else do
          let r ← guardF f.refreshStep (refresh_qa_pairs hashFn s now false fetch)
          if r.ok then guardF f.match2 (findBestMatch thr r.state.qa_pairs ql)
          else pure a1
      let ans ←
        match a2 with
        | some a => if a ≠ [] then guardF f.flavor (naijaFlavor a) else pure msgNoSabi
        | none => pure msgNoSabi
      let _ ← guardF f.store ()
      return ans

/-- `GoogleDocQA.get_answer` (bot.py lines 142-180): the whole body runs
under `try`, and any exception is converted to a fixed fallback string. -/
def get_answer (hashFn : List Char → List Char) (s : BotState) (now : Int)
    (fetch : Except Unit (List Char)) (thr : ℚ) (question : List Char)
    (f : GAFaults) : List Char :=
  match getAnswerCore hashFn s now fetch thr question f with
  | .ok ans => ans
  | .error _ => msgBrainBroke

/-! ### app.py : `fetch_responses` parsing and `find_best_response` -/

/-- CPython dict insertion: update in place if the key exists, else
append. -/
def dictInsert (d : List (List Char × List Char)) (k v : List Char) :
    List (List Char × List Char) :=
  match d with
  | [] => [(k, v)]
  | (k0, v0) :: rest =>
    if k0 = k then (k0, v) :: rest else (k0, v0) :: dictInsert rest k v

/-- Python `d[k]` presence / lookup as used by `find_best_response`. -/
def dictLookup (d : List (List Char × List Char)) (k : List Char) :
    Option (List Char) :=
  (d.find? (fun p => p.1 = k)).map (fun p => p.2)

def qMarkL : List Char := ['q', ':']
def aMarkL : List Char := ['a', ':']

structure AppSt where
  responses : List (List Char × List Char)
  currentQ : Option (List Char)
  currentA : List (List Char)
deriving DecidableEq

/-- Emit the pending question of `fetch_responses` (app.py lines 68-70 and
79-80): `responses[current_question.lower()] = ' '.join(current_answer).strip()`,
guarded by the truthiness of `current_question`. -/
def appEmit (st : AppSt) : List (List Char × List Char) :=
  match st.currentQ with
  | some q =>
    if q ≠ [] then dictInsert st.responses (lowerStr q) (strip (joinSpace st.currentA))
    else st.responses
  | none => st.responses

/-- One text run of `fetch_responses` (app.py lines 63-76): strip it, and
case-insensitively dispatch on a leading `q:` or `a:` marker. -/
def appStep (st : AppSt) (raw : List Char) : AppSt :=
  let text := strip raw
  if startsWith qMarkL (lowerStr text) then
    { responses := appEmit st, currentQ := some (strip (text.drop 2)), currentA := [] }
  else if startsWith aMarkL (lowerStr text) then
    { st with currentA := st.currentA ++ [strip (text.drop 2)] }
  else st

/-- The parsing loop of `fetch_responses` (app.py lines 56-80) over the
document's text runs, including the final emission. -/
def appParse (texts : List (List Char)) : List (List Char × List Char) :=
  appEmit (texts.foldl appStep ⟨[], none, []⟩)

/-- The containment tier of `find_best_response` (app.py lines 103-106):
first record whose question contains the message or is contained in it. -/
def firstContain (m : List Char) : List (List Char × List Char) → Option (List Char)
  | [] => none
  | (q, a) :: rest =>
    if containsSub m q || containsSub q m then some a else firstContain m rest

/-- The keyword list of `find_best_response` (app.py lines 109-113). -/
def keywords : List (List Char) :=
  ["who".data, "what".data, "when".data, "where".data, "why".data, "how".data,
   "are you".data, "can you".data, "will you".data, "do you".data,
   "is it".data, "am i".data, "should i".data, "life".data, "fact".data]

/-- The keyword tier of `find_best_response` (app.py lines 115-120). -/
def foundAnswers (m : List Char) (responses : List (List Char × List Char)) :
    List (List Char) :=
  keywords.foldl
    (fun acc kw =>
      if containsSub m kw then
        acc ++ (responses.filter (fun p => containsSub p.1 kw)).map (fun p => p.2)
      else acc)
    []

def msgCombinedHead : List Char := "Abeg, no vex. From wetin I sabi: \n\n".data
def msgCombinedTail : List Char := "\n\nNo be me talk am, na life show us.".data
def msgNoAnswer : List Char :=
  "Ah-ah! I no fit find answer for your question for my database. Na wa o! Life hard sha.".data

/-- Python `"\n\n".join(xs)`. -/
def joinNN : List (List Char) → List Char
  | [] => []
  | [x] => x
  | x :: y :: rest => x ++ "\n\n".data ++ joinNN (y :: rest)

/-- `find_best_response` (app.py lines 96-128): exact dict hit, then the
containment scan, then keyword aggregation, then the fixed default. -/
def findBestResponse (userMessage : List Char)
    (responses : List (List Char × List Char)) : List Char :=
  let m := strip (lowerStr userMessage)
  match dictLookup responses m with
  | some a => a
  | none =>
    match firstContain m responses with
    | some a => a
    | none =>
      let fa := foundAnswers m responses
      if fa ≠ [] then msgCombinedHead ++ joinNN (fa.take 3) ++ msgCombinedTail
      else msgNoAnswer

/-- Stand-in digest used by the concrete counterexamples and witnesses.
The refresh logic only ever compares digests of fetched texts for
equality, and any deterministic digest (the source's SHA-256 included)
yields equal values on byte-identical texts, so the instances proved with
it exercise exactly the control flow of the source. -/
def idDigest (c : List Char) : List Char := c

/-- A fault configuration injecting no exception anywhere. -/
def faultsNone : GAFaults := ⟨false, false, false, false, false, false, false⟩

/-- A fault configuration making the first matching step raise. -/
def faultsMatchStep : GAFaults := ⟨false, false, true, false, false, false, false⟩

/-! ## Helper lemmas -/

theorem char_toNat_ofNat {n : Nat} (hv : n.isValidChar) :
    (Char.ofNat n).toNat = n := by
  simp [Char.ofNat, hv, Char.ofNatAux, Char.toNat, UInt32.toNat, BitVec.toNat_ofNatLt]

theorem lowerChar_idem (c : Char) : lowerChar (lowerChar c) = lowerChar c := by
  unfold lowerChar
  by_cases h : 65 ≤ c.toNat ∧ c.toNat ≤ 90
  · rw [if_pos h]
    have hv : (c.toNat + 32).isValidChar := Or.inl (by omega)
    rw [if_neg]
    rw [char_toNat_ofNat hv]
    omega
  · rw [if_neg h, if_neg h]

theorem lowerStr_idem (s : List Char) : lowerStr (lowerStr s) = lowerStr s := by
  unfold lowerStr
  rw [List.map_map]
  exact List.map_congr_left fun c _ => lowerChar_idem c

/-- `parse_qa_pairs` yields either nothing or exactly one pair whose
question is lowercased and whose question and answer are non-empty. -/
theorem parse_shape (content : List Char) :
    parse_qa_pairs content = [] ∨
      ∃ q a, q ≠ [] ∧ a ≠ [] ∧ parse_qa_pairs content = [(lowerStr q, a)] := by
  unfold parse_qa_pairs
  rcases hq : (flushBuffer (parseLines (splitLines content) ⟨none, none, []⟩)).currentQ
    with _ | q
  · left
    simp [hq]
  · rcases ha : (flushBuffer (parseLines (splitLines content) ⟨none, none, []⟩)).currentA
      with _ | a
    · left
      simp [hq, ha]
    · by_cases hcond : q ≠ [] ∧ a ≠ []
      · right
        exact ⟨q, a, hcond.1, hcond.2, by simp [hq, ha, hcond]⟩
      · left
        simp [hq, ha, hcond]

theorem parse_mem {content : List Char} {p : List Char × List Char}
    (hp : p ∈ parse_qa_pairs content) :
    ∃ q, p.1 = lowerStr q ∧ p.1 ≠ [] ∧ p.2 ≠ [] := by
  rcases parse_shape content with h | ⟨q, a, hq, ha, h⟩
  · rw [h] at hp
    cases hp
  · rw [h] at hp
    rcases List.mem_singleton.mp hp with rfl
    refine ⟨q, rfl, ?_, ha⟩
    simpa [lowerStr] using hq

/-- The `_find_best_match` loop returns the first exactly-matching
record's answer no matter what accumulator it carries. -/
theorem findBestMatchGo_find {thr : ℚ} {query : List Char} :
    ∀ (pairs : List (List Char × List Char)) (p : List Char × List Char)
      (best : Option (List Char)) (high : ℚ),
      pairs.find? (fun x => x.1 == query) = some p →
      findBestMatchGo thr query pairs best high = some p.2 := by
  intro pairs
  induction pairs with
  | nil =>
    intro p best high h
    simp at h
  | cons hd tl ih =>
    intro p best high h
    obtain ⟨q, a⟩ := hd
    by_cases hb : q = query
    · rw [List.find?_cons_of_pos _ (by simpa using hb)] at h
      cases h
      simp [findBestMatchGo, hb.symm]
    · rw [List.find?_cons_of_neg _ (by simpa using hb)] at h
      have hne : ¬query = q := fun hc => hb hc.symm
      rw [findBestMatchGo, if_neg hne]
      by_cases hs : similarity query q > high ∧ similarity query q ≥ thr
      · rw [if_pos hs]
        exact ih p _ _ h
      · rw [if_neg hs]
        exact ih p _ _ h

/-- Case analysis on a `refresh_qa_pairs` call: its four exits. -/
theorem refresh_cases (hashFn : List Char → List Char) (s : BotState) (now : Int)
    (force : Bool) (fetch : Except Unit (List Char)) :
    refresh_qa_pairs hashFn s now force fetch = ⟨s, true, 0, 0⟩ ∨
    refresh_qa_pairs hashFn s now force fetch = ⟨s, false, 1, 0⟩ ∨
    refresh_qa_pairs hashFn s now force fetch = ⟨{ s with last_refresh := now }, true, 1, 0⟩ ∨
    refresh_qa_pairs hashFn s now force fetch = ⟨s, false, 1, 1⟩ ∨
    ∃ c, fetch = .ok c ∧ parse_qa_pairs c ≠ [] ∧
      refresh_qa_pairs hashFn s now force fetch =
        ⟨{ s with qa_pairs := parse_qa_pairs c, content_hash := some (hashFn c), last_refresh := now }, true, 1, 1⟩ := by
  unfold refresh_qa_pairs
  by_cases h1 : ¬force ∧ now - s.last_refresh < s.refresh_interval
  · left
    rw [if_pos h1]
  · rw [if_neg h1]
    cases fetch with
    | error u =>
      right; left
      rfl
    | ok c =>
      dsimp only
      by_cases h2 : ¬force ∧ s.content_hash = some (hashFn c)
      · right; right; left
        simp only [if_pos h2]
      · rw [if_neg h2]
        by_cases h3 : parse_qa_pairs c = []
        · right; right; right; left
          simp only [if_pos h3]
        · right; right; right; right
          exact ⟨c, rfl, h3, by simp only [if_neg h3]⟩

/-- Stripping a text that opens with two non-space marker characters
keeps the marker and right-strips the remainder. -/
theorem strip_marker (m1 m2 : Char) (r : List Char)
    (h1 : isSpace m1 = false) (h2 : isSpace m2 = false) :
    strip (m1 :: m2 :: r) = m1 :: m2 :: stripRightW r := by
  unfold strip stripRightW
  rw [List.dropWhile_cons, if_neg (by simp [h1])]
  rw [List.reverse_cons, List.reverse_cons, List.append_assoc]
  rw [List.dropWhile_append]
  by_cases he : (r.reverse.dropWhile isSpace).isEmpty
  · rw [if_pos he]
    rw [List.isEmpty_iff.mp he]
    simp [List.dropWhile_cons, h2, h1]
  · rw [if_neg he]
    simp

theorem lowerStr_cons (c : Char) (r : List Char) :
    lowerStr (c :: r) = lowerChar c :: lowerStr r := rfl

/-- `appStep` treats a lowercase `q:` marker exactly like an uppercase
`Q:` marker (`fetch_responses` lowercases before testing the marker and
stores `text[2:]`, which is past the marker either way). -/
theorem appStep_q_case (st : AppSt) (r : List Char) :
    appStep st ('q' :: ':' :: r) = appStep st ('Q' :: ':' :: r) := by
  simp only [appStep,
    strip_marker 'q' ':' r (by decide) (by decide),
    strip_marker 'Q' ':' r (by decide) (by decide),
    lowerStr_cons,
    (by decide : lowerChar 'q' = 'q'),
    (by decide : lowerChar 'Q' = 'q'),
    (by decide : lowerChar ':' = ':'),
    startsWith, qMarkL, aMarkL, List.drop]

/-- `appStep` treats a lowercase `a:` marker exactly like `A:`. -/
theorem appStep_a_case (st : AppSt) (r : List Char) :
    appStep st ('a' :: ':' :: r) = appStep st ('A' :: ':' :: r) := by
  simp only [appStep,
    strip_marker 'a' ':' r (by decide) (by decide),
    strip_marker 'A' ':' r (by decide) (by decide),
    lowerStr_cons,
    (by decide : lowerChar 'a' = 'a'),
    (by decide : lowerChar 'A' = 'a'),
    (by decide : lowerChar ':' = ':'),
    startsWith, qMarkL, aMarkL, List.drop]

/-- The containment scan of `find_best_response` is the first matching
record of the list. -/
theorem firstContain_eq_find (m : List Char) :
    ∀ rs : List (List Char × List Char),
      firstContain m rs =
        (rs.find? (fun r => containsSub m r.1 || containsSub r.1 m)).map
          (fun p => p.2) := by
  intro rs
  induction rs with
  | nil => rfl
  | cons hd tl ih =>
    obtain ⟨q, a⟩ := hd
    by_cases hc : containsSub m q || containsSub q m
    · rw [List.find?_cons_of_pos _ (by simpa using hc)]
      simp [firstContain, hc]
    · rw [List.find?_cons_of_neg _ (by simpa using hc)]
      rw [firstContain, if_neg (by simpa using hc)]
      exact ih

/-! ## Claims -/

/-- Claim C1 (code_bug evidence): the claim says a document with two
complete `Q:`/`A:` entries parses to exactly two records, each question
paired with its own answer.  The source appends to `qa_pairs` only once,
after the line loop, so `parse_qa_pairs` returns at most one record and
here pairs the FIRST question with the LAST answer: the failing input
`"Q: q1\nA: a1\nQ: q2\nA: a2"` yields the single record `(q1, a2)`, not
`[(q1, a1), (q2, a2)]`. -/
theorem c1_two_entries_mispair :
    parse_qa_pairs "Q: q1\nA: a1\nQ: q2\nA: a2".data = [("q1".data, "a2".data)] ∧
    parse_qa_pairs "Q: q1\nA: a1\nQ: q2\nA: a2".data ≠
      [("q1".data, "a1".data), ("q2".data, "a2".data)] := by
  constructor
  · decide
  · decide

/-- Claim C7 (counterexample): the claim says an `A:` with nothing after
it still emits the pending question with an empty answer.  On
`"Q: hello\nA:"` the parser sets the pending answer to the empty string,
and the final `if current_q and current_a` rejects it (Python truthiness),
so no record at all is emitted. -/
theorem c7_empty_answer_dropped :
    parse_qa_pairs "Q: hello\nA:".data = [] ∧
    ("hello".data, ([] : List Char)) ∉ parse_qa_pairs "Q: hello\nA:".data := by
  constructor
  · decide
  · decide

/-- Claim C7 (amended): `parse_qa_pairs` never emits a record with an
empty answer (or an empty question): an `A:` marker with no text after it
leaves the pair un-emitted. -/
theorem c7_no_empty_answer_emitted (content : List Char)
    (p : List Char × List Char) (hp : p ∈ parse_qa_pairs content) :
    p.2 ≠ [] ∧ p.1 ≠ [] := by
  obtain ⟨q, _, hq, ha⟩ := parse_mem hp
  exact ⟨ha, hq⟩

theorem c7_no_empty_answer_emitted_witness :
    ("hello".data, "hi".data) ∈ parse_qa_pairs "Q: hello\nA: hi".data ∧
    ("hi".data ≠ ([] : List Char) ∧ "hello".data ≠ ([] : List Char)) :=
  ⟨by decide,
    c7_no_empty_answer_emitted "Q: hello\nA: hi".data ("hello".data, "hi".data)
      (by decide)⟩

/-- Claim C8 (counterexample): the claim says the record markers are
recognized case-insensitively.  `parse_qa_pairs` (bot.py) tests
`startswith('Q:')` / `startswith('A:')` on the raw text, so an entry
written `q:`/`a:` parses to nothing while the `Q:`/`A:` spelling parses to
a record. -/
theorem c8_markers_case_sensitive :
    parse_qa_pairs "q: hello\na: hi".data = [] ∧
    parse_qa_pairs "Q: hello\nA: hi".data = [("hello".data, "hi".data)] := by
  constructor
  · decide
  · decide

/-- Claim C8 (amended): of the two parsers in the repository, only
`fetch_responses` (app.py) matches the markers case-insensitively — it
lowercases each text run before testing the marker, so a `q:`-and-`a:`
entry parses into exactly the same record as the `Q:`-and-`A:` spelling —
while `parse_qa_pairs` (bot.py) recognizes only the uppercase markers. -/
theorem c8_app_markers_case_insensitive (qt at' : List Char) :
    appParse ["q:".data ++ qt, "a:".data ++ at'] =
      appParse ["Q:".data ++ qt, "A:".data ++ at'] := by
  show appParse ['q' :: ':' :: qt, 'a' :: ':' :: at'] =
    appParse ['Q' :: ':' :: qt, 'A' :: ':' :: at']
  unfold appParse
  rw [List.foldl_cons, List.foldl_cons, List.foldl_cons, List.foldl_cons]
  rw [appStep_q_case, appStep_a_case]

/-- Claim C2 (counterexample): the claim says that across two FORCED
refreshes with byte-identical fetched text the second does not re-parse.
The unchanged-fingerprint skip in the source is guarded by `not force`,
so a forced refresh always re-parses: after a first forced refresh of
`"Q: ping\nA: pong"`, a second forced refresh of the identical text
parses again (`parses = 1`, not `0`), even though it does return success
and advance `last_refresh`. -/
theorem c2_forced_refresh_reparses :
    (refresh_qa_pairs idDigest
        (refresh_qa_pairs idDigest ⟨[], -1000000, none, 300, [], 3600⟩ 0 true
            (.ok "Q: ping\nA: pong".data)).state
        10 true (.ok "Q: ping\nA: pong".data)).parses = 1 ∧
    (refresh_qa_pairs idDigest
        (refresh_qa_pairs idDigest ⟨[], -1000000, none, 300, [], 3600⟩ 0 true
            (.ok "Q: ping\nA: pong".data)).state
        10 true (.ok "Q: ping\nA: pong".data)).ok = true ∧
    (refresh_qa_pairs idDigest
        (refresh_qa_pairs idDigest ⟨[], -1000000, none, 300, [], 3600⟩ 0 true
            (.ok "Q: ping\nA: pong".data)).state
        10 true (.ok "Q: ping\nA: pong".data)).state.last_refresh = 10 := by
  refine ⟨?_, ?_, ?_⟩ <;> decide

/-- Claim C2 (amended): the unchanged-content skip applies to NON-forced
refreshes: when the refresh interval has elapsed and the fetched text's
digest equals the stored one, a non-forced refresh does not re-parse
(`parses = 0`), yet still advances `last_refresh` and returns success. -/
theorem c2_unchanged_content_skip (hashFn : List Char → List Char) (s : BotState)
    (now : Int) (c : List Char)
    (hdue : ¬ now - s.last_refresh < s.refresh_interval)
    (hsame : s.content_hash = some (hashFn c)) :
    refresh_qa_pairs hashFn s now false (.ok c) =
      ⟨{ s with last_refresh := now }, true, 1, 0⟩ := by
  unfold refresh_qa_pairs
  rw [if_neg (by simpa using hdue)]
  dsimp only
  rw [if_pos (by simpa using hsame)]

theorem c2_unchanged_content_skip_witness :
    refresh_qa_pairs idDigest
        ⟨[("ping".data, "pong".data)], 0, some "Q: ping\nA: pong".data, 300, [], 3600⟩
        1000 false (.ok "Q: ping\nA: pong".data) =
      ⟨⟨[("ping".data, "pong".data)], 1000, some "Q: ping\nA: pong".data, 300, [], 3600⟩,
        true, 1, 0⟩ :=
  c2_unchanged_content_skip idDigest
    ⟨[("ping".data, "pong".data)], 0, some "Q: ping\nA: pong".data, 300, [], 3600⟩
    1000 "Q: ping\nA: pong".data (by decide) (by decide)

/-- Claim C3: a failing refresh — the fetch raised, or the fetched text
parsed to zero records — returns failure and leaves `qa_pairs` and
`content_hash` exactly as they were (the state is in fact wholly
untouched); and those two situations do return failure whenever the
refresh actually proceeds past its early exits. -/
theorem c3_failed_refresh_preserves_state (hashFn : List Char → List Char)
    (s : BotState) (now : Int) (force : Bool) (fetch : Except Unit (List Char)) :
    ((refresh_qa_pairs hashFn s now force fetch).ok = false →
      (refresh_qa_pairs hashFn s now force fetch).state.qa_pairs = s.qa_pairs ∧
      (refresh_qa_pairs hashFn s now force fetch).state.content_hash = s.content_hash) ∧
    (∀ u, fetch = .error u →
      ¬(¬force ∧ now - s.last_refresh < s.refresh_interval) →
      (refresh_qa_pairs hashFn s now force fetch).ok = false) ∧
    (∀ c, fetch = .ok c → parse_qa_pairs c = [] →
      ¬(¬force ∧ now - s.last_refresh < s.refresh_interval) →
      ¬(¬force ∧ s.content_hash = some (hashFn c)) →
      (refresh_qa_pairs hashFn s now force fetch).ok = false) := by
  refine ⟨?_, ?_, ?_⟩
  · intro hfail
    rcases refresh_cases hashFn s now force fetch with h | h | h | h | ⟨c, _, _, h⟩ <;>
      rw [h] at hfail ⊢ <;> simp at hfail ⊢
  · rintro u rfl hskip
    unfold refresh_qa_pairs
    rw [if_neg hskip]
  · rintro c rfl hempty hskip hsame
    unfold refresh_qa_pairs
    rw [if_neg hskip]
    dsimp only
    rw [if_neg hsame, if_pos hempty]

theorem c3_failed_refresh_preserves_state_witness :
    (refresh_qa_pairs idDigest
        ⟨[("ping".data, "pong".data)], 0, some "h".data, 300, [], 3600⟩
        1000 true (.error ())).ok = false ∧
    (refresh_qa_pairs idDigest
        ⟨[("ping".data, "pong".data)], 0, some "h".data, 300, [], 3600⟩
        1000 true (.error ())).state.qa_pairs = [("ping".data, "pong".data)] ∧
    (refresh_qa_pairs idDigest
        ⟨[("ping".data, "pong".data)], 0, some "h".data, 300, [], 3600⟩
        1000 true (.error ())).state.content_hash = some "h".data := by
  have h := c3_failed_refresh_preserves_state idDigest
    ⟨[("ping".data, "pong".data)], 0, some "h".data, 300, [], 3600⟩ 1000 true (.error ())
  have hok := h.2.1 () rfl (by decide)
  exact ⟨hok, (h.1 hok).1, (h.1 hok).2⟩

/-- Each `refresh_qa_pairs` call fetches the document at most once. -/
theorem refresh_fetches_le_one (hashFn : List Char → List Char) (s : BotState)
    (now : Int) (force : Bool) (fetch : Except Unit (List Char)) :
    (refresh_qa_pairs hashFn s now force fetch).fetches ≤ 1 := by
  rcases refresh_cases hashFn s now force fetch with h | h | h | h | ⟨c, _, _, h⟩ <;>
    simp [h]

/-- Claim C6: a non-forced refresh within the refresh interval returns
success immediately with no I/O and no state change; consequently two
non-forced refreshes where the second lands within the interval perform
at most one fetch between them. -/
theorem c6_refresh_rate_limited :
    (∀ (hashFn : List Char → List Char) (s : BotState) (now : Int)
        (fetch : Except Unit (List Char)),
      now - s.last_refresh < s.refresh_interval →
      refresh_qa_pairs hashFn s now false fetch = ⟨s, true, 0, 0⟩) ∧
    (∀ (hashFn : List Char → List Char) (s : BotState) (t1 t2 : Int)
        (fr1 fr2 : Except Unit (List Char)),
      t2 - (refresh_qa_pairs hashFn s t1 false fr1).state.last_refresh <
          (refresh_qa_pairs hashFn s t1 false fr1).state.refresh_interval →
      (refresh_qa_pairs hashFn s t1 false fr1).fetches +
        (refresh_qa_pairs hashFn (refresh_qa_pairs hashFn s t1 false fr1).state
            t2 false fr2).fetches ≤ 1) := by
  have hskip : ∀ (hashFn : List Char → List Char) (s : BotState) (now : Int)
      (fetch : Except Unit (List Char)),
      now - s.last_refresh < s.refresh_interval →
      refresh_qa_pairs hashFn s now false fetch = ⟨s, true, 0, 0⟩ := by
    intro hashFn s now fetch h
    unfold refresh_qa_pairs
    rw [if_pos (by simpa using h)]
  refine ⟨hskip, ?_⟩
  intro hashFn s t1 t2 fr1 fr2 h
  rw [hskip hashFn _ t2 fr2 h]
  dsimp only
  have := refresh_fetches_le_one hashFn s t1 false fr1
  omega

theorem c6_refresh_rate_limited_witness :
    refresh_qa_pairs idDigest ⟨[("ping".data, "pong".data)], 0, none, 300, [], 3600⟩
        10 false (.ok "x".data) =
      ⟨⟨[("ping".data, "pong".data)], 0, none, 300, [], 3600⟩, true, 0, 0⟩ ∧
    (refresh_qa_pairs idDigest ⟨[], -1000000, none, 300, [], 3600⟩ 0 false
          (.ok "Q: ping\nA: pong".data)).fetches +
      (refresh_qa_pairs idDigest
          (refresh_qa_pairs idDigest ⟨[], -1000000, none, 300, [], 3600⟩ 0 false
              (.ok "Q: ping\nA: pong".data)).state
          10 false (.ok "Q: ping\nA: pong".data)).fetches ≤ 1 :=
  ⟨c6_refresh_rate_limited.1 idDigest
      ⟨[("ping".data, "pong".data)], 0, none, 300, [], 3600⟩ 10 (.ok "x".data)
      (by decide),
    c6_refresh_rate_limited.2 idDigest ⟨[], -1000000, none, 300, [], 3600⟩ 0 10
      (.ok "Q: ping\nA: pong".data) (.ok "Q: ping\nA: pong".data) (by decide)⟩

/-- Claim C5: when some record's stored question equals the (normalized)
query exactly, `_find_best_match` returns the answer of the first such
record, for every threshold and every surrounding record list — no
containment or similarity candidate elsewhere in the list can override
the exact match. -/
theorem c5_exact_match_wins (thr : ℚ) (pairs : List (List Char × List Char))
    (query : List Char) (p : List Char × List Char)
    (hfind : pairs.find? (fun x => x.1 == query) = some p) :
    findBestMatch thr pairs query = some p.2 :=
  findBestMatchGo_find pairs p none 0 hfind

theorem c5_exact_match_wins_witness :
    ([(("hi").data, ("hello").data), (("hi there").data, ("hey").data)].find?
        (fun x => x.1 == "hi".data) = some ("hi".data, "hello".data)) ∧
    findBestMatch (3 / 5) [("hi".data, "hello".data), ("hi there".data, "hey".data)]
        "hi".data = some "hello".data :=
  ⟨by decide,
    c5_exact_match_wins (3 / 5)
      [("hi".data, "hello".data), ("hi there".data, "hey".data)] "hi".data
      ("hi".data, "hello".data) (by decide)⟩

/-- Claim C4 (counterexample): the claim says that whenever a record's
question and the query contain one another as substrings, resolution
returns that record's answer before any similarity scoring runs.  The
matcher actually used by bot.py, `_find_best_match`, has NO containment
tier: with the single record `("ab", "X")` and the query `"zzzzab"` the
containment condition holds, yet the `SequenceMatcher` ratio is
`2*2/(6+2) = 1/2 < 0.6`, so the matcher returns no answer at all. -/
theorem c4_no_containment_tier_in_bot :
    findBestMatch (3 / 5) [("ab".data, "X".data)] "zzzzab".data = none ∧
    containsSub "zzzzab".data "ab".data = true := by
  constructor
  · have hsim : similarity "zzzzab".data "ab".data = 1 / 2 := by
      unfold similarity
      rw [(by decide : matchingTotal "zzzzab".data "ab".data = 2)]
      rw [(by decide : ("zzzzab".data).length = 6)]
      rw [(by decide : ("ab".data).length = 2)]
      norm_num
    unfold findBestMatch findBestMatchGo
    rw [if_neg (by decide : ¬("zzzzab".data = "ab".data))]
    dsimp only
    rw [hsim]
    rw [if_neg (by norm_num)]
    unfold findBestMatchGo
    rw [if_neg (by norm_num)]
  · decide

/-- Claim C4 (amended): the containment tier exists only in app.py's
`find_best_response`: there, when the normalized message has no exact
dictionary hit and some record's question contains the message or is
contained in it, the answer of the FIRST such record in insertion order
is returned. -/
theorem c4_containment_tier_in_app (userMessage : List Char)
    (responses : List (List Char × List Char)) (p : List Char × List Char)
    (hexact : dictLookup responses (strip (lowerStr userMessage)) = none)
    (hfind : responses.find?
        (fun r => containsSub (strip (lowerStr userMessage)) r.1 ||
          containsSub r.1 (strip (lowerStr userMessage))) = some p) :
    findBestResponse userMessage responses = p.2 := by
  unfold findBestResponse
  dsimp only
  rw [hexact]
  dsimp only
  rw [firstContain_eq_find, hfind]
  rfl

theorem c4_containment_tier_in_app_witness :
    dictLookup [("what is your name".data, "Bot".data)]
        (strip (lowerStr "please tell me what is your name now".data)) = none ∧
    findBestResponse "please tell me what is your name now".data
        [("what is your name".data, "Bot".data)] = "Bot".data :=
  ⟨by decide,
    c4_containment_tier_in_app "please tell me what is your name now".data
      [("what is your name".data, "Bot".data)]
      ("what is your name".data, "Bot".data) (by decide) (by decide)⟩

/-- Claim C9: `get_answer` wraps its whole body in a catch-all handler:
whatever the internal steps do — including any injected exception during
cache cleanup, cache lookup, matching, or the refresh-and-retry path —
the method returns a string: the body's result when no exception escapes,
and the fixed fallback string otherwise.  Exceptions never propagate to
the caller. -/
theorem c9_get_answer_never_raises (hashFn : List Char → List Char) (s : BotState)
    (now : Int) (fetch : Except Unit (List Char)) (thr : ℚ) (question : List Char)
    (f : GAFaults) :
    (getAnswerCore hashFn s now fetch thr question f = .error () →
      get_answer hashFn s now fetch thr question f = msgBrainBroke) ∧
    (∀ a, getAnswerCore hashFn s now fetch thr question f = .ok a →
      get_answer hashFn s now fetch thr question f = a) := by
  constructor
  · intro h
    unfold get_answer
    rw [h]
  · intro a h
    unfold get_answer
    rw [h]

theorem c9_get_answer_never_raises_witness :
    getAnswerCore idDigest ⟨[], -1000000, none, 300, [], 3600⟩ 0 (.error ()) 1
        "yo".data faultsMatchStep = .error () ∧
    get_answer idDigest ⟨[], -1000000, none, 300, [], 3600⟩ 0 (.error ()) 1
        "yo".data faultsMatchStep = msgBrainBroke :=
  ⟨rfl,
    (c9_get_answer_never_raises idDigest ⟨[], -1000000, none, 300, [], 3600⟩ 0
        (.error ()) 1 "yo".data faultsMatchStep).1 rfl⟩

/-- Claim C10: every question stored in `qa_pairs` is lowercased — the
parser emits only lowercased questions, every `refresh_qa_pairs` call
preserves the invariant (it either keeps the old records or installs
freshly parsed ones), and `get_answer` normalizes the incoming query with
the same lowercasing, so its result is insensitive to the letter case of
the query. -/
theorem c10_questions_lowercased :
    (∀ (content : List Char) (p : List Char × List Char),
      p ∈ parse_qa_pairs content → p.1 = lowerStr p.1) ∧
    (∀ (hashFn : List Char → List Char) (s : BotState) (now : Int) (force : Bool)
        (fetch : Except Unit (List Char)),
      (∀ p ∈ s.qa_pairs, p.1 = lowerStr p.1) →
      ∀ p ∈ (refresh_qa_pairs hashFn s now force fetch).state.qa_pairs,
        p.1 = lowerStr p.1) ∧
    (∀ (hashFn : List Char → List Char) (s : BotState) (now : Int)
        (fetch : Except Unit (List Char)) (thr : ℚ) (f : GAFaults)
        (q1 q2 : List Char),
      lowerStr q1 = lowerStr q2 →
      get_answer hashFn s now fetch thr q1 f = get_answer hashFn s now fetch thr q2 f) := by
  have hparse : ∀ (content : List Char) (p : List Char × List Char),
      p ∈ parse_qa_pairs content → p.1 = lowerStr p.1 := by
    intro content p hp
    obtain ⟨q, hq, _, _⟩ := parse_mem hp
    rw [hq, lowerStr_idem]
  refine ⟨hparse, ?_, ?_⟩
  · intro hashFn s now force fetch hinv p hp
    rcases refresh_cases hashFn s now force fetch with h | h | h | h | ⟨c, _, _, h⟩ <;>
      rw [h] at hp
    · exact hinv p hp
    · exact hinv p hp
    · exact hinv p hp
    · exact hinv p hp
    · exact hparse c p hp
  · intro hashFn s now fetch thr f q1 q2 h
    unfold get_answer getAnswerCore
    rw [h]

theorem c10_questions_lowercased_witness :
    ("hello".data = lowerStr "hello".data) ∧
    get_answer idDigest ⟨[("hi".data, "hello".data)], 0, none, 300, [], 3600⟩ 1
        (.error ()) 1 "HI".data faultsNone =
      get_answer idDigest ⟨[("hi".data, "hello".data)], 0, none, 300, [], 3600⟩ 1
        (.error ()) 1 "hi".data faultsNone :=
  ⟨c10_questions_lowercased.1 "Q: HELLO\nA: Yo".data ("hello".data, "Yo".data)
      (by decide),
    c10_questions_lowercased.2.2 idDigest
      ⟨[("hi".data, "hello".data)], 0, none, 300, [], 3600⟩ 1 (.error ()) 1
      faultsNone "HI".data "hi".data (by decide)⟩

end QABot
